import Mathlib

/-!
Verification development for the `zt` (ZeroTier) transport of nng
(`src/transport/zerotier/zerotier.c`).

The definitions below are a shallow embedding of that C file.  Byte
strings are `List Nat` (each element a byte value), machine integers are
`Nat`/`Int` with explicit wrap-around (`% 2^16`, `% 2^64`) exactly where
the C types make overflow observable.  Fallible or effectful code is
modelled by returning the new state together with an explicit record of
the observable effects (messages delivered to the user aio, aio error
completions, frames handed to the network).  Code paths that are
undefined behaviour in C (out-of-bounds array accesses, reads of
uninitialised memory) are noted at their definition sites; no theorem in
this file depends on such a path except where the uninitialised value is
made an explicit parameter (`fragno0` in `zt_pipe_send`).
-/

/-! ## Constants from the source (enum zt_tunables, zt_op_codes, zt_offsets, zt_errors) -/

def zt_listenq : Nat := 128
def zt_listen_expire : Nat := 60000000
def zt_conn_attempts : Nat := 12
def zt_conn_interval : Nat := 5000000
def zt_recvq : Nat := 2
def zt_recv_stale : Nat := 1000000

def zt_op_data : Nat := 0x00
def zt_op_data_mf : Nat := 0x01
def zt_op_conn_req : Nat := 0x10
def zt_op_conn_ack : Nat := 0x12
def zt_op_disc_req : Nat := 0x20
def zt_op_error : Nat := 0x40

def zt_offset_data_id : Nat := 0x0C
def zt_offset_data_fragsz : Nat := 0x0E
def zt_offset_data_frag : Nat := 0x10
def zt_offset_data_nfrag : Nat := 0x12
def zt_offset_data_data : Nat := 0x14
def zt_size_headers : Nat := 0x0C
def zt_size_conn_req : Nat := 0x0E
def zt_size_conn_ack : Nat := 0x0E
def zt_size_data : Nat := 0x14

def zt_err_refused : Nat := 0x01
def zt_err_notconn : Nat := 0x02
def zt_err_wrongsp : Nat := 0x03
def zt_err_proto : Nat := 0x04
def zt_err_msgsize : Nat := 0x05
def zt_err_unknown : Nat := 0x06

def zt_version : Nat := 0x01
def zt_port_mask : Nat := 0xffffff

/-- The nng error codes used by this transport.  The numeric values of the
`NNG_E...` macros are not part of this file's source, so the codes are an
inductive type; only their distinctness matters here. -/
inductive NngErr where
  | ECLOSED
  | EPROTO
  | EMSGSIZE
  | ETIMEDOUT
  | ECONNREFUSED
  | ETRANERR
deriving DecidableEq

/-! ## Byte helpers (NNI_GET16 / NNI_PUT16 / ZT_PUT24) -/

/-- NNI_GET16: read a big-endian 16-bit value at `off`.  A read past the end
of the buffer is undefined behaviour in C; it is modelled as 0 and no theorem
exercises it. -/
def get16 (d : List Nat) (off : Nat) : Nat :=
  (d.getD off 0) * 256 + d.getD (off + 1) 0

/-- NNI_PUT16: big-endian bytes of the low 16 bits of `v`. -/
def put16 (v : Nat) : List Nat :=
  [v / 256 % 256, v % 256]

/-- ZT_PUT24: big-endian bytes of the low 24 bits of `v`. -/
def put24 (v : Nat) : List Nat :=
  [v / 65536 % 256, v / 256 % 256, v % 256]

/-- memset(dst, 0xff, n): overwrite the first `n` bytes with 0xff.  When
`n` exceeds the array length the C call is an out-of-bounds write
(undefined behaviour); the model simply stops at the end of the list. -/
def memsetFF : List Nat → Nat → List Nat
  | l, 0 => l
  | [], _ + 1 => []
  | _ :: t, n + 1 => 0xff :: memsetFF t n

/-- memcpy(buf + off, src, src.length): overwrite `buf` starting at `off`.
When `off + src.length` exceeds `buf.length` the C call writes past the end
of the allocation (undefined behaviour); no theorem exercises that case. -/
def listWrite (buf : List Nat) (off : Nat) (src : List Nat) : List Nat :=
  buf.take off ++ src ++ buf.drop (off + src.length)

/-! ## Fragment reassembly (struct zt_fraglist, struct zt_pipe, receive path) -/

/-- struct zt_fraglist.  `fl_missing` is the missing-fragment bitmap, one
byte list entry per `uint8_t`; its allocated size is `fl_missingsz`. -/
structure zt_fraglist where
  fl_time : Nat
  fl_msgid : Nat
  fl_ready : Bool
  fl_fragsz : Nat
  fl_nfrags : Nat
  fl_missing : List Nat
  fl_missingsz : Nat
  fl_msg : Option (List Nat)
deriving DecidableEq

def zt_fraglist_empty : zt_fraglist :=
  { fl_time := 0, fl_msgid := 0, fl_ready := false, fl_fragsz := 0,
    fl_nfrags := 0, fl_missing := [], fl_missingsz := 0, fl_msg := none }

/-- zt_fraglist_clear. -/
def zt_fraglist_clear (fl : zt_fraglist) : zt_fraglist :=
  { fl with
    fl_ready := false
    fl_msgid := 0
    fl_time := 0
    fl_msg := none
    fl_missing := List.replicate fl.fl_missingsz 0 }

/-- The slot (re)initialisation block of zt_pipe_recv_data (the branch taken
when `fl->fl_msgid != msgid`): clear the slot, allocate `nfrags * fragsz`
bytes of message buffer (allocation success is assumed; the content of a
fresh nni_msg is modelled as zero bytes), record the frame parameters, and
set the missing mask.  The mask is set exactly as in the source:

    memset(fl->fl_missing, 0xff, nfrags / 8);
    fl->fl_missing[i] |= ((1 << (nfrags % 8)) - 1);

where `i` is the slot-scan loop variable of the enclosing function, passed
in here as the parameter `i`. -/
def zt_fraglist_init (fl : zt_fraglist) (i msgid nfrags fragsz : Nat) : zt_fraglist :=
  let fl0 := zt_fraglist_clear fl
  let missing1 := memsetFF fl0.fl_missing (nfrags / 8)
  let missing2 := missing1.set i ((missing1.getD i 0) ||| (2 ^ (nfrags % 8) - 1))
  { fl0 with
    fl_msg := some (List.replicate (nfrags * fragsz) 0)
    fl_nfrags := nfrags
    fl_fragsz := fragsz
    fl_msgid := msgid
    fl_missing := missing2 }

/-- struct zt_pipe (the fields the send and receive paths touch).
`zp_user_rxaio` records whether a user read is pending (the C field is the
aio pointer). -/
structure zt_pipe where
  zp_rcvmax : Nat
  zp_mtu : Nat
  zp_laddr : Nat
  zp_raddr : Nat
  zp_next_msgid : Nat
  zp_closed : Bool
  zp_user_rxaio : Bool
  zp_recvq : List zt_fraglist
deriving DecidableEq

def zt_pipe_set_slot (p : zt_pipe) (slot : Nat) (fl : zt_fraglist) : zt_pipe :=
  { p with zp_recvq := p.zp_recvq.set slot fl }

/-- The fraglist setup of zt_pipe_init: `zt_recvq` empty slots, each with a
missing bitmap of `(maxfrags + 7) / 8` bytes where
`maxfrags = (rcvmax + maxfrag - 1) / maxfrag` and `maxfrag = mtu - 20`.
The pipe fields not set by the C initialiser default to zero
(NNI_ALLOC_STRUCT zeroes the allocation).  `userRx` states whether a user
read has been posted on the pipe (zt_pipe_recv). -/
def zt_pipe_mk (mtu rcvmax laddr raddr next_msgid : Nat) (userRx : Bool) : zt_pipe :=
  let maxfrag := mtu - zt_offset_data_data
  let maxfrags := (rcvmax + (maxfrag - 1)) / maxfrag
  let missingsz := (maxfrags + 7) / 8
  { zp_rcvmax := rcvmax, zp_mtu := mtu, zp_laddr := laddr, zp_raddr := raddr,
    zp_next_msgid := next_msgid, zp_closed := false, zp_user_rxaio := userRx,
    zp_recvq := List.replicate zt_recvq
      { fl_time := 0, fl_msgid := 0, fl_ready := false, fl_fragsz := 0,
        fl_nfrags := 0, fl_missing := List.replicate missingsz 0,
        fl_missingsz := missingsz, fl_msg := none } }

/-- The loop body of zt_pipe_dorecv over the slot list: stale slots
(`now > fl_time + zt_recv_stale`) are cleared; the first ready slot is
delivered (its message returned) and cleared; later slots are untouched
once a delivery happens.  Note the source does not reset `zp_user_rxaio`
after `nni_aio_finish_msg`; the caller of this loop does not either. -/
def zt_dorecv_loop (now : Nat) : List zt_fraglist → List zt_fraglist × Option (List Nat)
  | [] => ([], none)
  | fl :: rest =>
    if zt_recv_stale + fl.fl_time < now then
      let r := zt_dorecv_loop now rest
      (zt_fraglist_clear fl :: r.1, r.2)
    else if fl.fl_ready = false then
      let r := zt_dorecv_loop now rest
      (fl :: r.1, r.2)
    else
      (zt_fraglist_clear fl :: rest, fl.fl_msg)

/-- zt_pipe_dorecv: a no-op when no user read is pending; otherwise scan the
slots (`zt_dorecv_loop`), returning at most one delivered message. -/
def zt_pipe_dorecv (p : zt_pipe) (now : Nat) : zt_pipe × Option (List Nat) :=
  if p.zp_user_rxaio = false then (p, none)
  else
    let r := zt_dorecv_loop now p.zp_recvq
    ({ p with zp_recvq := r.1 }, r.2)

/-- The slot-selection loop of zt_pipe_recv_data:

    slot = -1;
    for (i = 0; i < zt_recvq; i++) {
        fl = &p->zp_recvq[i];
        if (msgid == fl->fl_msgid) { slot = i; break; }
        if (slot < 0) { slot = i; }
        else if (fl->fl_time < p->zp_recvq[slot].fl_time) { slot = i; }
    }

Returns `(slot, i)` where `i` is the loop variable's final value (equal to
the break index on a msgid match, and to the queue length otherwise); the
final `i` matters because the fraglist initialiser reuses it.  The first
argument counts the remaining iterations (`q.length - i`, so the loop test
`i < q.length` becomes exhaustion of that count). -/
def chooseSlotGo (q : List zt_fraglist) (msgid : Nat) :
    Nat → Nat → Option Nat → Nat × Nat
  | 0, i, slot => (slot.getD 0, i)
  | rem + 1, i, slot =>
    let fl := q.getD i zt_fraglist_empty
    if fl.fl_msgid = msgid then (i, i)
    else
      let slot2 :=
        match slot with
        | none => some i
        | some s =>
          if fl.fl_time < (q.getD s zt_fraglist_empty).fl_time then some i else some s
      chooseSlotGo q msgid rem (i + 1) slot2

def chooseSlot (q : List zt_fraglist) (msgid : Nat) : Nat × Nat :=
  chooseSlotGo q msgid q.length 0 none

/-- The observable effects of one zt_pipe_recv_data call: messages handed to
the user read aio (via nni_aio_finish_msg in zt_pipe_dorecv), an error
completion of the user read aio, and the code of any protocol-error frame
sent back to the peer.  In this source every `zt_pipe_send_error` call is
commented out (`// XXX: ...`), so `txError` is `none` on every path. -/
structure RecvEffect where
  delivered : List (List Nat)
  rxerr : Option NngErr
  txError : Option Nat
deriving DecidableEq

/-- zt_pipe_recv_data (zerotier.c lines 793-919), modelled statement by
statement on the frame byte list `frame` (the whole virtual-network frame,
headers included, as handed to the function).  Notable source facts kept
as-is:
* when the frame is a runt and no user read is pending, the source is
  missing a `return` and falls through into the parsing code;
* `len -= zt_offset_data_data` is size_t arithmetic, hence the explicit
  wrap at 2^64;
* the oversize precheck compares `nfrags * fragsz >= rcvmax + fragsz`;
* the fraglist initialiser receives the slot-scan loop variable `i`;
* a fragment is dropped when its missing-bit is SET (`missing & bit`)
  and accepted when the bit is clear;
* on the last fragment the message is chopped by `fragsz - len` and
  discarded (slot cleared) if longer than `zp_rcvmax`;
* no error frame is ever transmitted (all such sends are commented out). -/
def zt_pipe_recv_data (p : zt_pipe) (now : Nat) (frame : List Nat) : zt_pipe × RecvEffect :=
  let len := frame.length
  if len < zt_size_data ∧ p.zp_user_rxaio then
    ({ p with zp_user_rxaio := false, zp_closed := true },
     { delivered := [], rxerr := some NngErr.EPROTO, txError := none })
  else
    let msgid := get16 frame zt_offset_data_id
    let fragsz := get16 frame zt_offset_data_fragsz
    let fragno := get16 frame zt_offset_data_frag
    let nfrags := get16 frame zt_offset_data_nfrag
    let len2 := (len + (18446744073709551616 - zt_size_data)) % 18446744073709551616
    let payload := (frame.drop zt_offset_data_data).take len2
    if p.zp_rcvmax + fragsz ≤ nfrags * fragsz then
      (p, { delivered := [], rxerr := none, txError := none })
    else
      let pr := zt_pipe_dorecv p now
      let p1 := pr.1
      let d1 := pr.2
      let sc := chooseSlot p1.zp_recvq msgid
      let slot := sc.1
      let iEnd := sc.2
      let fl0 := p1.zp_recvq.getD slot zt_fraglist_empty
      let fl1 := if fl0.fl_msgid ≠ msgid then zt_fraglist_init fl0 iEnd msgid nfrags fragsz else fl0
      if nfrags ≠ fl1.fl_nfrags ∨ fragsz ≠ fl1.fl_fragsz ∨ nfrags ≤ fragno ∨
          fragsz = 0 ∨ nfrags = 0 ∨ (fragno ≠ nfrags - 1 ∧ len2 ≠ fragsz) then
        (zt_pipe_set_slot p1 slot (zt_fraglist_clear fl1),
         { delivered := d1.toList, rxerr := none, txError := none })
      else
        let bit := 2 ^ (fragno % 8)
        if (fl1.fl_missing.getD (fragno / 8) 0) &&& bit ≠ 0 then
          (zt_pipe_set_slot p1 slot fl1,
           { delivered := d1.toList, rxerr := none, txError := none })
        else
          let missing2 := fl1.fl_missing.set (fragno / 8)
            ((fl1.fl_missing.getD (fragno / 8) 0) &&& (255 - bit))
          let body1 := listWrite (fl1.fl_msg.getD []) (fragno * fragsz) payload
          let body2 := if fragno = nfrags - 1 then body1.take (body1.length - (fragsz - len2)) else body1
          let fl2 := { fl1 with fl_missing := missing2, fl_msg := some body2 }
          if fragno = nfrags - 1 ∧ p1.zp_rcvmax < body2.length then
            (zt_pipe_set_slot p1 slot (zt_fraglist_clear fl2),
             { delivered := d1.toList, rxerr := none, txError := none })
          else
            if fl2.fl_missing.any (fun b => b != 0) then
              (zt_pipe_set_slot p1 slot fl2,
               { delivered := d1.toList, rxerr := none, txError := none })
            else
              let p2 := zt_pipe_set_slot p1 slot { fl2 with fl_ready := true }
              let pr2 := zt_pipe_dorecv p2 now
              (pr2.1,
               { delivered := d1.toList ++ pr2.2.toList, rxerr := none, txError := none })

/-! ## Send path (zt_send, zt_pipe_send) -/

/-- The 12-byte header zt_send writes into the front of the caller's
buffer: op, flags = 0, version (2 bytes BE), zero, dst port (3 bytes BE),
zero, src port (3 bytes BE). -/
def zt_frame_header (op raddr laddr : Nat) : List Nat :=
  [op, 0] ++ put16 zt_version ++ [0] ++ put24 (raddr % (zt_port_mask + 1)) ++
    [0] ++ put24 (laddr % (zt_port_mask + 1))

/-- What zt_send hands to the virtual network: the first `len` bytes of the
caller's buffer, whose bytes from offset 12 on are `tail`.  (zt_send
asserts `len >= zt_size_headers`; zt_pipe_send violates that assertion,
see the theorems.) -/
def zt_send_wire (op raddr laddr : Nat) (tail : List Nat) (len : Nat) : List Nat :=
  (zt_frame_header op raddr laddr ++ tail).take len

/-- An entry of the aio gather list.  In C `iov_len` is a field distinct
from the buffer pointer; the send loop advances the pointer without
updating the field, so both are modelled. -/
structure zt_iov where
  iov_len : Nat
  iov_buf : List Nat
deriving DecidableEq

inductive SendOutcome where
  | err (e : NngErr)
  | ok (frames : List (List Nat)) (offset : Nat)
  | nofuel
deriving DecidableEq

/-- The while loop of zt_pipe_send.  Each iteration builds a frame whose
bytes 12..19 are msgid, fragsz, fragno, nfrags (big-endian) and whose
bytes from 20 on are the fragment payload, then calls
`zt_send(..., zt_op_data, ..., data, len)` where `len` is the PAYLOAD
length, so only the first `len` bytes of the frame reach the wire.
In the `iov_len > fragsz` branch the source advances `iov_buf` but never
decreases `iov_len`, so the loop does not terminate on such input; `fuel`
makes the model total and `none` signals a loop still running.
`fragno` is never initialised by the source; its starting value is the
explicit parameter of the caller. -/
def zt_pipe_send_loop (raddr laddr id fragsz nfrags : Nat) :
    Nat → List zt_iov → Nat → Nat → List (List Nat) →
    Option (List (List Nat) × Nat)
  | _, [], _, offset, acc => some (acc.reverse, offset)
  | 0, _ :: _, _, _, _ => none
  | fuel + 1, iov :: rest, fragno, offset, acc =>
    if fragsz < iov.iov_len then
      let payload := iov.iov_buf.take fragsz
      let frame := zt_send_wire zt_op_data raddr laddr
        (put16 id ++ put16 fragsz ++ put16 (fragno % 65536) ++ put16 nfrags ++ payload) fragsz
      zt_pipe_send_loop raddr laddr id fragsz nfrags fuel
        ({ iov_len := iov.iov_len, iov_buf := iov.iov_buf.drop fragsz } :: rest)
        (fragno + 1) (offset + fragsz) (frame :: acc)
    else
      let len := iov.iov_len
      let payload := iov.iov_buf.take len
      let frame := zt_send_wire zt_op_data raddr laddr
        (put16 id ++ put16 fragsz ++ put16 (fragno % 65536) ++ put16 nfrags ++ payload) len
      zt_pipe_send_loop raddr laddr id fragsz nfrags fuel rest
        (fragno + 1) (offset + len) (frame :: acc)

/-- zt_pipe_send (zerotier.c lines 1691-1769).  `fragsz` is the uint16_t
cast of `zp_mtu - 20`; the EMSGSIZE guard is `bytes >= 0xfffe * fragsz`;
`nfrags` is the uint16_t cast of `ceil(bytes / fragsz)`; the message id is
the post-incremented 16-bit counter skipping zero.  `fragno0` models the
value found in the uninitialised local `fragno`. -/
def zt_pipe_send (p : zt_pipe) (iovs : List zt_iov) (fragno0 : Nat) (fuel : Nat) :
    SendOutcome :=
  if p.zp_closed then SendOutcome.err NngErr.ECLOSED
  else
    let fragsz := (p.zp_mtu + (65536 - zt_offset_data_data)) % 65536
    let bytes := (iovs.map (fun v => v.iov_len)).sum
    if 0xfffe * fragsz ≤ bytes then SendOutcome.err NngErr.EMSGSIZE
    else
      let id :=
        if p.zp_next_msgid % 65536 ≠ 0 then p.zp_next_msgid % 65536
        else (p.zp_next_msgid + 1) % 65536
      let nfrags := ((bytes + (fragsz - 1)) / fragsz) % 65536
      match zt_pipe_send_loop (p.zp_raddr) (p.zp_laddr) id fragsz nfrags fuel iovs fragno0 0 [] with
      | none => SendOutcome.nofuel
      | some r => SendOutcome.ok r.1 r.2

/-! ## Dialer connect retry (zt_ep_connect / zt_ep_conn_req_cb) -/

/-- The dialer-side connect state the retry logic touches: the attempt
counter `ze_creq_try`, the number of CONN_REQ frames emitted so far, and
the completion (if any) of the user connect aio. -/
structure ConnReqState where
  ze_creq_try : Nat
  sent : Nat
  result : Option NngErr
deriving DecidableEq

/-- zt_ep_connect, reduced to the retry state: set `ze_creq_try = 1`, arm
the timer, send the first CONN_REQ. -/
def zt_ep_connect_creq : ConnReqState :=
  { ze_creq_try := 1, sent := 1, result := none }

/-- zt_ep_conn_req_cb when the creq aio completes with NNG_ETIMEDOUT and a
user aio is still waiting: if `ze_creq_try <= zt_conn_attempts`, increment
the counter, resend CONN_REQ and rearm; otherwise zero the counter and
fail the user aio with the timeout error.  Once the user aio has been
completed the timer is no longer armed, so further events do nothing. -/
def zt_ep_conn_req_timeout (s : ConnReqState) : ConnReqState :=
  if s.result.isSome then s
  else if s.ze_creq_try ≤ zt_conn_attempts then
    { s with ze_creq_try := s.ze_creq_try + 1, sent := s.sent + 1 }
  else
    { ze_creq_try := 0, sent := s.sent, result := some NngErr.ETIMEDOUT }

/-- The connect state after `zt_ep_connect` followed by `n` timer firings
with no CONN_ACK. -/
def connAfterTimeouts : Nat → ConnReqState
  | 0 => zt_ep_connect_creq
  | n + 1 => zt_ep_conn_req_timeout (connAfterTimeouts n)

/-! ## Listener (zt_ep_recv_conn_req / zt_ep_doaccept) -/

/-- struct zt_creq: one backlog entry. -/
structure zt_creq where
  cr_expire : Nat
  cr_raddr : Nat
  cr_proto : Nat
deriving DecidableEq

def zt_creq_empty : zt_creq := { cr_expire := 0, cr_raddr := 0, cr_proto := 0 }

/-- The listener-side endpoint state: the backlog ring `ze_creqs` (a fixed
array of `zt_listenq` entries indexed modulo `zt_listenq` by the
monotonically increasing head and tail counters), the number of pending
accept aios on `ze_aios`, and the node's established-peer index
`zn_peers` restricted to its key set (the raddrs that currently have a
pipe). -/
structure zt_ep where
  ze_creqs : List zt_creq
  ze_creq_head : Nat
  ze_creq_tail : Nat
  ze_waiters : Nat
  zn_peers : List Nat
deriving DecidableEq

def zt_ep_listener_init : zt_ep :=
  { ze_creqs := List.replicate zt_listenq zt_creq_empty,
    ze_creq_head := 0, ze_creq_tail := 0, ze_waiters := 0, zn_peers := [] }

/-- Observable listener events: a CONN_ACK frame to `raddr`, a protocol
error frame, creation of a pipe for a backlog entry (zt_pipe_init inside
zt_ep_doaccept, which also inserts the entry's raddr into `zn_peers`),
and completion of an accept waiter. -/
inductive LEvt where
  | connAck (raddr : Nat)
  | errFrame (code : Nat) (raddr : Nat)
  | pipeCreated (creq : zt_creq)
deriving DecidableEq

/-- The drain loop of zt_ep_doaccept: while the backlog is non-empty, an
entry whose `cr_expire < now` is discarded (tail advances, nothing else
happens); otherwise, if no accept waiter is pending the loop stops; else
the entry is popped, a pipe is created for it (registering its raddr in
the peer index), a CONN_ACK is sent, and the waiter is finished with the
pipe.  Allocation failures inside zt_pipe_init are not modelled (the model
assumes allocation succeeds).  Fuel starts at `head - tail`, which bounds
the number of iterations since every iteration advances the tail. -/
def zt_ep_doaccept_go (now : Nat) : Nat → zt_ep → zt_ep × List LEvt
  | 0, ep => (ep, [])
  | fuel + 1, ep =>
    if ep.ze_creq_tail = ep.ze_creq_head then (ep, [])
    else if (ep.ze_creqs.getD (ep.ze_creq_tail % zt_listenq) zt_creq_empty).cr_expire < now then
      zt_ep_doaccept_go now fuel { ep with ze_creq_tail := ep.ze_creq_tail + 1 }
    else if ep.ze_waiters = 0 then (ep, [])
    else
      let creq := ep.ze_creqs.getD (ep.ze_creq_tail % zt_listenq) zt_creq_empty
      let r := zt_ep_doaccept_go now fuel { ep with
        ze_creq_tail := ep.ze_creq_tail + 1,
        ze_waiters := ep.ze_waiters - 1,
        zn_peers := creq.cr_raddr :: ep.zn_peers }
      (r.1, LEvt.pipeCreated creq :: LEvt.connAck creq.cr_raddr :: r.2)

def zt_ep_doaccept (ep : zt_ep) (now : Nat) : zt_ep × List LEvt :=
  zt_ep_doaccept_go now (ep.ze_creq_head - ep.ze_creq_tail) ep

/-- The dedupe scan of zt_ep_recv_conn_req: is some pending backlog entry
(from tail to head, indexed modulo `zt_listenq`) already recorded for
`raddr`? -/
def zt_creq_pending (ep : zt_ep) (raddr : Nat) : Bool :=
  (List.range (ep.ze_creq_head - ep.ze_creq_tail)).any fun k =>
    (ep.ze_creqs.getD ((ep.ze_creq_tail + k) % zt_listenq) zt_creq_empty).cr_raddr = raddr

/-- zt_ep_recv_conn_req (zerotier.c lines 667-719) for an endpoint in
listen mode: reject bad lengths with an ERROR(PROTO) frame; if the raddr
already has an established pipe, just resend CONN_ACK; if it is already in
the backlog, ignore; if the backlog is full (`tail + zt_listenq == head`),
drop silently; otherwise record the request (expiry `now +
zt_listen_expire`) and run zt_ep_doaccept. -/
def zt_ep_recv_conn_req (ep : zt_ep) (raddr proto len now : Nat) : zt_ep × List LEvt :=
  if len ≠ zt_size_conn_req then (ep, [LEvt.errFrame zt_err_proto raddr])
  else if raddr ∈ ep.zn_peers then (ep, [LEvt.connAck raddr])
  else if zt_creq_pending ep raddr then (ep, [])
  else if ep.ze_creq_tail + zt_listenq = ep.ze_creq_head then (ep, [])
  else
    let i := ep.ze_creq_head % zt_listenq
    let ep2 := { ep with
      ze_creqs := ep.ze_creqs.set i
        { cr_proto := proto, cr_raddr := raddr, cr_expire := now + zt_listen_expire },
      ze_creq_head := ep.ze_creq_head + 1 }
    zt_ep_doaccept ep2 now

/-- zt_ep_accept: append a waiter, then drain the backlog. -/
def zt_ep_accept (ep : zt_ep) (now : Nat) : zt_ep × List LEvt :=
  zt_ep_doaccept { ep with ze_waiters := ep.ze_waiters + 1 } now

/-- The external stimuli a listening endpoint reacts to. -/
inductive LInput where
  | connReq (raddr proto len now : Nat)
  | accept (now : Nat)
deriving DecidableEq

def zt_ep_apply (ep : zt_ep) (e : LInput) : zt_ep :=
  match e with
  | LInput.connReq raddr proto len now => (zt_ep_recv_conn_req ep raddr proto len now).1
  | LInput.accept now => (zt_ep_accept ep now).1

/-- The listener state reached from a fresh listening endpoint by a
sequence of inputs. -/
def zt_ep_run (evts : List LInput) : zt_ep :=
  evts.foldl zt_ep_apply zt_ep_listener_init

/-- `n` identical valid CONN_REQ frames from `raddr` delivered in
sequence, collecting all emitted events. -/
def zt_ep_recv_conn_req_iter (raddr proto now : Nat) : Nat → zt_ep → zt_ep × List LEvt
  | 0, ep => (ep, [])
  | n + 1, ep =>
    let r1 := zt_ep_recv_conn_req ep raddr proto zt_size_conn_req now
    let r2 := zt_ep_recv_conn_req_iter raddr proto now n r1.1
    (r2.1, r1.2 ++ r2.2)

/-! ## State persistence (zt_state_put / zt_state_get) -/

/-- ZT_STATE_OBJECT_NETWORK_CONFIG (the largest ZT_StateObjectType value). -/
def ZT_STATE_OBJECT_NETWORK_CONFIG : Nat := 6

/-- NNG_MAXADDRLEN: the size of the path buffers.  The value is defined in
nng's core headers (not in this source file); no theorem depends on it. -/
def NNG_MAXADDRLEN : Nat := 128

/-- The zt_files table: per object type, the file it is persisted under
(`NULL` entries are not persisted at all). -/
def zt_files : List (Option String) :=
  [none, some ("identity.public"), some ("identity.secret"), some ("planet"),
   none, none, none]

/-- One entry of the in-memory `zt_ephemeral_state` table: the stored
pointer (`NULL` modelled as `none`) and the stored length.  The C length
field is a `size_t` assigned from the signed `int` argument; it is kept
here as the `Int` that was assigned, and converted where the C code reads
it back as `size_t`. -/
structure zt_eph_slot where
  data : Option (List Nat)
  len : Int
deriving DecidableEq

/-- The value of a C `size_t` holding the converted `Int` `i`. -/
def sizeTof (i : Int) : Nat :=
  if 0 ≤ i then i.toNat else (2 ^ 64 + i).toNat

/-- The state the put/get callbacks touch: the ephemeral table (indexed by
object type) and the files of the home directory (an association list from
path to content). -/
structure ZtStateWorld where
  eph : Nat → zt_eph_slot
  fs : List (String × List Nat)

def fsErase (fs : List (String × List Nat)) (path : String) : List (String × List Nat) :=
  fs.filter (fun kv => !(kv.1 == path))

def fsStore (fs : List (String × List Nat)) (path : String) (content : List Nat) :
    List (String × List Nat) :=
  (path, content) :: fsErase fs path

def fsFind (fs : List (String × List Nat)) (path : String) : Option (List Nat) :=
  (fs.find? (fun kv => kv.1 == path)).map (fun kv => kv.2)

/-- zt_state_put (zerotier.c lines 1099-1163).  `home` is the node's
`zn_path`; an empty home selects the ephemeral table.  A negative `len`
stores a NULL pointer in the ephemeral mode and unlinks the file in the
file mode; allocation is assumed to succeed for `len >= 0`.  If the
assembled path does not fit in the `NNG_MAXADDRLEN + 1` buffer, nothing is
stored. -/
def zt_state_put (w : ZtStateWorld) (home : String) (objtype : Nat)
    (data : List Nat) (len : Int) : ZtStateWorld :=
  if ZT_STATE_OBJECT_NETWORK_CONFIG < objtype then w
  else
    match zt_files.getD objtype none with
    | none => w
    | some fname =>
      if home.length = 0 then
        let ndata : Option (List Nat) := if 0 ≤ len then some (data.take len.toNat) else none
        { w with eph := fun j => if j = objtype then { data := ndata, len := len } else w.eph j }
      else
        let path := home ++ ("/") ++ fname
        if NNG_MAXADDRLEN < path.length then w
        else if len < 0 then { w with fs := fsErase w.fs path }
        else { w with fs := fsStore w.fs path (data.take len.toNat) }

/-- zt_state_get (zerotier.c lines 1165-1227), returning the C `int`
result: -1 when the object type is not persisted, when the ephemeral slot
holds NULL or more bytes than the caller's buffer, when the path does not
fit, when the file is absent, or when the file is larger than the buffer;
otherwise the number of bytes read. -/
def zt_state_get (w : ZtStateWorld) (home : String) (objtype : Nat) (buflen : Nat) : Int :=
  if ZT_STATE_OBJECT_NETWORK_CONFIG < objtype then -1
  else
    match zt_files.getD objtype none with
    | none => -1
    | some fname =>
      if home.length = 0 then
        match (w.eph objtype).data with
        | none => -1
        | some _ =>
          if buflen < sizeTof (w.eph objtype).len then -1
          else Int.ofNat (sizeTof (w.eph objtype).len)
      else
        let path := home ++ ("/") ++ fname
        if NNG_MAXADDRLEN < path.length then -1
        else
          match fsFind w.fs path with
          | none => -1
          | some content =>
            if buflen < content.length then -1
            else Int.ofNat content.length



/-! ## Concrete inputs used by the evaluation theorems -/

/-- A concrete DATA frame as zt_pipe_recv_data receives it: 12 header
bytes (already validated by zt_virtual_recv, their content is not read
again) followed by msgid, fragsz, fragno, nfrags (big-endian) and the
fragment payload. -/
def dataFrame (msgid fragsz fragno nfrags : Nat) (payload : List Nat) : List Nat :=
  [0, 0, 0, 1, 0, 0, 0, 0, 0, 0, 0, 0] ++ put16 msgid ++ put16 fragsz ++
    put16 fragno ++ put16 nfrags ++ payload

/-- A pipe with peer MTU 22 (so fragment size 2) and receive-max 49
(so 4 missing-bitmap bytes per slot), no pending read. -/
def pipe22 : zt_pipe := zt_pipe_mk 22 49 0 0 5 false

/-- A sending pipe with peer MTU 40 (fragment size 20). -/
def pipeSnd : zt_pipe := zt_pipe_mk 40 321 0 0 5 false

/-- The peer of `pipeSnd`, with a pending user read. -/
def pipeRcv : zt_pipe := zt_pipe_mk 40 321 0 0 9 true

/-- Modelled from the spec: the missing-bitmap contents the specification
prescribes after slot initialisation, namely all-ones over exactly the bit
positions `[0, nfrags)` and all higher bits clear, over `missingsz`
bytes. -/
def zt_fraglist_missing_spec (nfrags missingsz : Nat) : List Nat :=
  (List.range missingsz).map fun j =>
    if j < nfrags / 8 then 0xff
    else if j = nfrags / 8 then 2 ^ (nfrags % 8) - 1
    else 0

/-- Single-fragment message frame (nfrags = 1) for the bitmap-init claim. -/
def frameOneFrag : List Nat := dataFrame 7 2 0 1 [0x68]

/-- First fragment of a 9-fragment message: its missing-bit is set by the
initialiser (byte 0 is 0xff). -/
def frameNine0 : List Nat := dataFrame 7 2 0 9 [0x11, 0x22]

/-- First fragment of a 2-fragment message: its missing-bit is left clear
by the buggy initialiser (memset covers 2/8 = 0 bytes). -/
def frameTwo0 : List Nat := dataFrame 7 2 0 2 [0x11, 0x22]

/-- Last fragment (fragno 24) of a 25-fragment message of fragment size 2;
completing it yields a 50-byte message against receive-max 49. -/
def frameOver : List Nat := dataFrame 7 2 24 25 [0xAA, 0xBB]

/-- A listener that already has an established pipe for raddr 42. -/
def epPeer42 : zt_ep := { zt_ep_listener_init with zn_peers := [42] }

/-- A listener whose backlog ring is full (head = tail + zt_listenq). -/
def epFull : zt_ep :=
  { ze_creqs := List.replicate zt_listenq { cr_expire := 0, cr_raddr := 1, cr_proto := 0 },
    ze_creq_head := zt_listenq, ze_creq_tail := 0, ze_waiters := 0, zn_peers := [] }

/-- A listener with one backlog entry (expiring at time 50) and one
pending accept waiter. -/
def epBacklog1 : zt_ep :=
  { ze_creqs := (List.replicate zt_listenq zt_creq_empty).set 0
      { cr_expire := 50, cr_raddr := 9, cr_proto := 1 },
    ze_creq_head := 1, ze_creq_tail := 0, ze_waiters := 1, zn_peers := [] }

/-- An empty persistence world. -/
def wEmpty : ZtStateWorld := { eph := fun _ => { data := none, len := 0 }, fs := [] }

/-! ## Helper lemmas -/

theorem zt_ep_recv_conn_req_peer (ep : zt_ep) (raddr proto now : Nat)
    (h : raddr ∈ ep.zn_peers) :
    zt_ep_recv_conn_req ep raddr proto zt_size_conn_req now = (ep, [LEvt.connAck raddr]) := by
  simp [zt_ep_recv_conn_req, h]

theorem zt_ep_doaccept_go_bounds (now : Nat) : ∀ (fuel : Nat) (ep : zt_ep),
    ep.ze_creq_tail ≤ ep.ze_creq_head →
    (zt_ep_doaccept_go now fuel ep).1.ze_creq_head = ep.ze_creq_head ∧
    ep.ze_creq_tail ≤ (zt_ep_doaccept_go now fuel ep).1.ze_creq_tail ∧
    (zt_ep_doaccept_go now fuel ep).1.ze_creq_tail ≤ ep.ze_creq_head := by
  intro fuel
  induction fuel with
  | zero => intro ep h; exact ⟨rfl, Nat.le_refl _, h⟩
  | succ f ih =>
    intro ep h
    unfold zt_ep_doaccept_go
    by_cases h1 : ep.ze_creq_tail = ep.ze_creq_head
    · rw [if_pos h1]
      exact ⟨rfl, Nat.le_refl _, h⟩
    · have hlt : ep.ze_creq_tail < ep.ze_creq_head := Nat.lt_of_le_of_ne h h1
      rw [if_neg h1]
      by_cases h2 : (ep.ze_creqs.getD (ep.ze_creq_tail % zt_listenq) zt_creq_empty).cr_expire < now
      · rw [if_pos h2]
        have := ih { ep with ze_creq_tail := ep.ze_creq_tail + 1 } hlt
        exact ⟨this.1, Nat.le_trans (Nat.le_succ _) this.2.1, this.2.2⟩
      · rw [if_neg h2]
        by_cases h3 : ep.ze_waiters = 0
        · rw [if_pos h3]
          exact ⟨rfl, Nat.le_refl _, h⟩
        · rw [if_neg h3]
          have := ih { ep with
            ze_creq_tail := ep.ze_creq_tail + 1,
            ze_waiters := ep.ze_waiters - 1,
            zn_peers := (ep.ze_creqs.getD (ep.ze_creq_tail % zt_listenq) zt_creq_empty).cr_raddr :: ep.zn_peers }
            hlt
          exact ⟨this.1, Nat.le_trans (Nat.le_succ _) this.2.1, this.2.2⟩

theorem zt_ep_doaccept_bounds (ep : zt_ep) (now : Nat)
    (h : ep.ze_creq_tail ≤ ep.ze_creq_head) :
    (zt_ep_doaccept ep now).1.ze_creq_head = ep.ze_creq_head ∧
    ep.ze_creq_tail ≤ (zt_ep_doaccept ep now).1.ze_creq_tail ∧
    (zt_ep_doaccept ep now).1.ze_creq_tail ≤ ep.ze_creq_head :=
  zt_ep_doaccept_go_bounds now (ep.ze_creq_head - ep.ze_creq_tail) ep h

theorem zt_ep_doaccept_inv (ep : zt_ep) (now : Nat)
    (h : ep.ze_creq_tail ≤ ep.ze_creq_head ∧
      ep.ze_creq_head ≤ ep.ze_creq_tail + zt_listenq) :
    (zt_ep_doaccept ep now).1.ze_creq_tail ≤ (zt_ep_doaccept ep now).1.ze_creq_head ∧
    (zt_ep_doaccept ep now).1.ze_creq_head ≤
      (zt_ep_doaccept ep now).1.ze_creq_tail + zt_listenq := by
  have hb := zt_ep_doaccept_bounds ep now h.1
  constructor
  · rw [hb.1]; exact hb.2.2
  · rw [hb.1]
    have h1 := hb.2.1
    have h2 := h.2
    omega

theorem zt_ep_recv_conn_req_bounds (ep : zt_ep) (raddr proto len now : Nat)
    (h : ep.ze_creq_tail ≤ ep.ze_creq_head ∧
      ep.ze_creq_head ≤ ep.ze_creq_tail + zt_listenq) :
    (zt_ep_recv_conn_req ep raddr proto len now).1.ze_creq_tail ≤
      (zt_ep_recv_conn_req ep raddr proto len now).1.ze_creq_head ∧
    (zt_ep_recv_conn_req ep raddr proto len now).1.ze_creq_head ≤
      (zt_ep_recv_conn_req ep raddr proto len now).1.ze_creq_tail + zt_listenq := by
  unfold zt_ep_recv_conn_req
  split_ifs with e1 e2 e3 e4
  · exact h
  · exact h
  · exact h
  · exact h
  · have hfull : ep.ze_creq_head < ep.ze_creq_tail + zt_listenq :=
      Nat.lt_of_le_of_ne h.2 (fun hh => e4 hh.symm)
    exact zt_ep_doaccept_inv
      { ep with
        ze_creqs := ep.ze_creqs.set (ep.ze_creq_head % zt_listenq)
          { cr_proto := proto, cr_raddr := raddr, cr_expire := now + zt_listen_expire },
        ze_creq_head := ep.ze_creq_head + 1 } now
      ⟨Nat.le_trans h.1 (Nat.le_succ _),
       show ep.ze_creq_head + 1 ≤ ep.ze_creq_tail + zt_listenq by omega⟩

theorem zt_ep_apply_bounds (ep : zt_ep) (e : LInput)
    (h : ep.ze_creq_tail ≤ ep.ze_creq_head ∧
      ep.ze_creq_head ≤ ep.ze_creq_tail + zt_listenq) :
    (zt_ep_apply ep e).ze_creq_tail ≤ (zt_ep_apply ep e).ze_creq_head ∧
    (zt_ep_apply ep e).ze_creq_head ≤ (zt_ep_apply ep e).ze_creq_tail + zt_listenq := by
  cases e with
  | connReq raddr proto len now => exact zt_ep_recv_conn_req_bounds ep raddr proto len now h
  | accept now =>
    exact zt_ep_doaccept_inv { ep with ze_waiters := ep.ze_waiters + 1 } now ⟨h.1, h.2⟩

theorem zt_ep_run_bounds (evts : List LInput) :
    (zt_ep_run evts).ze_creq_tail ≤ (zt_ep_run evts).ze_creq_head ∧
    (zt_ep_run evts).ze_creq_head ≤ (zt_ep_run evts).ze_creq_tail + zt_listenq := by
  have main : ∀ (l : List LInput) (ep : zt_ep),
      ep.ze_creq_tail ≤ ep.ze_creq_head ∧
        ep.ze_creq_head ≤ ep.ze_creq_tail + zt_listenq →
      (List.foldl zt_ep_apply ep l).ze_creq_tail ≤ (List.foldl zt_ep_apply ep l).ze_creq_head ∧
        (List.foldl zt_ep_apply ep l).ze_creq_head ≤
          (List.foldl zt_ep_apply ep l).ze_creq_tail + zt_listenq := by
    intro l
    induction l with
    | nil => intro ep h; exact h
    | cons e t ih => intro ep h; exact ih _ (zt_ep_apply_bounds ep e h)
  exact main evts zt_ep_listener_init ⟨Nat.le_refl 0, Nat.zero_le _⟩

theorem zt_ep_recv_conn_req_full_drop (ep : zt_ep) (raddr proto now : Nat)
    (hfull : ep.ze_creq_tail + zt_listenq = ep.ze_creq_head)
    (hpeer : raddr ∉ ep.zn_peers)
    (hpend : zt_creq_pending ep raddr = false) :
    zt_ep_recv_conn_req ep raddr proto zt_size_conn_req now = (ep, []) := by
  unfold zt_ep_recv_conn_req
  rw [if_neg (by simp), if_neg hpeer, if_neg (by simp [hpend]), if_pos hfull]

theorem zt_ep_doaccept_go_not_expired (now : Nat) : ∀ (fuel : Nat) (ep : zt_ep)
    (creq : zt_creq), LEvt.pipeCreated creq ∈ (zt_ep_doaccept_go now fuel ep).2 →
    now ≤ creq.cr_expire := by
  intro fuel
  induction fuel with
  | zero => intro ep creq hmem; simp [zt_ep_doaccept_go] at hmem
  | succ f ih =>
    intro ep creq hmem
    unfold zt_ep_doaccept_go at hmem
    by_cases h1 : ep.ze_creq_tail = ep.ze_creq_head
    · rw [if_pos h1] at hmem; simp at hmem
    · rw [if_neg h1] at hmem
      by_cases h2 : (ep.ze_creqs.getD (ep.ze_creq_tail % zt_listenq) zt_creq_empty).cr_expire < now
      · rw [if_pos h2] at hmem
        exact ih _ creq hmem
      · rw [if_neg h2] at hmem
        by_cases h3 : ep.ze_waiters = 0
        · rw [if_pos h3] at hmem; simp at hmem
        · rw [if_neg h3] at hmem
          simp only [List.mem_cons] at hmem
          rcases hmem with hc | hc | hc
          · cases hc
            exact Nat.le_of_not_lt h2
          · cases hc
          · exact ih _ creq hc

theorem zt_ep_doaccept_not_expired (ep : zt_ep) (now : Nat) (creq : zt_creq)
    (hmem : LEvt.pipeCreated creq ∈ (zt_ep_doaccept ep now).2) :
    now ≤ creq.cr_expire :=
  zt_ep_doaccept_go_not_expired now (ep.ze_creq_head - ep.ze_creq_tail) ep creq hmem

theorem zt_ep_recv_conn_req_iter_peer (raddr proto now : Nat) : ∀ (n : Nat) (ep : zt_ep),
    raddr ∈ ep.zn_peers →
    zt_ep_recv_conn_req_iter raddr proto now n ep =
      (ep, List.replicate n (LEvt.connAck raddr)) := by
  intro n
  induction n with
  | zero => intro ep h; rfl
  | succ k ih =>
    intro ep h
    unfold zt_ep_recv_conn_req_iter
    rw [zt_ep_recv_conn_req_peer ep raddr proto now h]
    simp [ih ep h, List.replicate_succ]

theorem fsFind_fsErase (fs : List (String × List Nat)) (path : String) :
    fsFind (fsErase fs path) path = none := by
  induction fs with
  | nil => rfl
  | cons kv t ih =>
    unfold fsErase at ih ⊢
    rw [List.filter_cons]
    by_cases h : kv.1 == path
    · simp only [h, Bool.not_true, if_neg]
      exact ih
    · have hfalse : (kv.1 == path) = false := by simpa using h
      rw [if_pos (by simp [hfalse])]
      have ih2 := ih
      unfold fsFind at ih2 ⊢
      simp only [List.find?_cons, hfalse]
      exact ih2

/-! ## Claim theorems -/

/-- C1: the claim states that sending a byte string B (here B = 0x68 0x69,
well within both bounds) with zt_pipe_send and delivering every emitted
DATA fragment to the peer's zt_pipe_recv_data completes exactly one
pending read with a message equal to B.  On the code this fails:
zt_pipe_send hands zt_send the PAYLOAD length instead of the frame length
(`zt_send(..., data, len)` with `len = 2`), so the single emitted frame is
the 2-byte prefix of the headers and carries none of B; the peer's receive
path sees a runt frame (length < zt_size_data), closes the pipe and fails
the pending read with EPROTO instead of completing it with B. -/
theorem c1_roundtrip_code_bug :
    zt_pipe_send pipeSnd [{ iov_len := 2, iov_buf := [0x68, 0x69] }] 0 4 =
      SendOutcome.ok [[0, 0]] 2 ∧
    zt_pipe_recv_data pipeRcv 0 [0, 0] =
      ({ pipeRcv with zp_user_rxaio := false, zp_closed := true },
       { delivered := [], rxerr := some NngErr.EPROTO, txError := none }) := by
  decide

/-- C2: the claim states that on a msgid mismatch the slot is reset and the
missing-bitmap initialised to all-ones over exactly [0, nfrags).  On the
code the second initialiser statement writes through the slot-scan loop
variable `i` (always `zt_recvq = 2` in this branch, as the first conjunct
shows), not through byte index `nfrags / 8`.  For a single-fragment message
(`nfrags = 1`) on a fresh pipe the resulting bitmap is `[0, 0, 1, 0]`:
bit 0 (the one bit the claim requires set) is clear and bit 16 is set,
whereas the specified bitmap is `[1, 0, 0, 0]`. -/
theorem c2_missing_bitmap_code_bug :
    chooseSlot pipe22.zp_recvq 7 = (0, 2) ∧
    zt_fraglist_init (pipe22.zp_recvq.getD 0 zt_fraglist_empty) 2 7 1 2 =
      { fl_time := 0, fl_msgid := 7, fl_ready := false, fl_fragsz := 2, fl_nfrags := 1,
        fl_missing := [0, 0, 1, 0], fl_missingsz := 4, fl_msg := some [0, 0] } ∧
    ((zt_pipe_recv_data pipe22 0 frameOneFrag).1.zp_recvq.getD 0 zt_fraglist_empty).fl_missing
      = [0, 0, 1, 0] ∧
    zt_fraglist_missing_spec 1 4 = [1, 0, 0, 0] ∧
    ([0, 0, 1, 0] : List Nat) ≠ zt_fraglist_missing_spec 1 4 := by
  decide

/-- C3: the claim states that every emitted wire frame of a multi-fragment
message carries opcode DATA_MF (0x01) except the final one (DATA, 0x00).
On the code a 21-byte message sent as two gather-list entries over a
40-byte-MTU pipe splits into nfrags = 2, yet both emitted frames carry
opcode byte 0x00 (`zt_send` is always called with `zt_op_data`); the first
(non-final) frame is the 20-byte header prefix with opcode 0x00, not
DATA_MF.  (The frame bytes also show the fragment counter starting at the
uninitialised value 0xAAAA, and the payload truncated away because the
payload length is passed as the frame length.) -/
theorem c3_opcode_code_bug :
    zt_pipe_send pipeSnd
      [{ iov_len := 20, iov_buf := List.replicate 20 0x41 },
       { iov_len := 1, iov_buf := [0x42] }] 0xAAAA 5 =
      SendOutcome.ok
        [[0, 0, 0, 1, 0, 0, 0, 0, 0, 0, 0, 0, 0, 5, 0, 20, 0xAA, 0xAA, 0, 2], [0]] 21 ∧
    zt_op_data ≠ zt_op_data_mf := by
  decide

/-- C4: the claim states that a fragment whose missing-bit is already CLEAR
is dropped silently as a duplicate.  The code's test is inverted
(`if (fl->fl_missing[fragno / 8] & bit) return;`): the first conjunct
shows a never-before-seen fragment (fragment 0 of a fresh 9-fragment
message, whose missing-bit is set to 1 by the initialiser) being dropped —
its payload 0x11 0x22 is not copied into the message buffer and its bit
stays set — while the second conjunct shows a fragment whose bit is clear
(fragment 0 of a 2-fragment message, left clear by the buggy initialiser)
being accepted and copied rather than dropped.  The final conjunct shows
that re-delivering that fragment leaves the pipe state unchanged, i.e. the
observable "twice = once" outcome holds at this input, but through the
inverted mechanism. -/
theorem c4_duplicate_test_code_bug :
    (((zt_pipe_recv_data pipe22 0 frameNine0).1.zp_recvq.getD 0 zt_fraglist_empty).fl_missing
        = [0xff, 0, 1, 0] ∧
      ((zt_pipe_recv_data pipe22 0 frameNine0).1.zp_recvq.getD 0 zt_fraglist_empty).fl_msg
        = some (List.replicate 18 0) ∧
      (zt_pipe_recv_data pipe22 0 frameNine0).2 =
        { delivered := [], rxerr := none, txError := none }) ∧
    ((zt_pipe_recv_data pipe22 0 frameTwo0).1.zp_recvq.getD 0 zt_fraglist_empty).fl_msg
        = some [0x11, 0x22, 0, 0] ∧
    (zt_pipe_recv_data (zt_pipe_recv_data pipe22 0 frameTwo0).1 0 frameTwo0).1 =
      (zt_pipe_recv_data pipe22 0 frameTwo0).1 := by
  decide

/-- C5 counterexample: the claim states that a dialer that never receives
CONN_ACK retries while `try < zt_conn_attempts` and emits exactly
`zt_conn_attempts` (12) CONN_REQ frames before failing.  On the code the
retry test is `try <= zt_conn_attempts`: after 12 timer firings the
connect has NOT yet failed (and 13 frames are already out); it fails on
the 13th firing, having emitted `zt_conn_attempts + 1 = 13` frames. -/
theorem c5_counterexample :
    (connAfterTimeouts zt_conn_attempts).result = none ∧
    (connAfterTimeouts zt_conn_attempts).sent = zt_conn_attempts + 1 ∧
    (connAfterTimeouts (zt_conn_attempts + 1)).result = some NngErr.ETIMEDOUT ∧
    (connAfterTimeouts (zt_conn_attempts + 1)).sent = zt_conn_attempts + 1 ∧
    zt_conn_attempts + 1 ≠ zt_conn_attempts := by
  decide

/-- C5 (amended): a dialer's connect that never receives a CONN_ACK retries
while `try <= zt_conn_attempts` (12), emitting `zt_conn_attempts + 1`
(13) CONN_REQ frames in total (the initial send plus 12 retries), and on
the next timer firing fails the user aio with ETIMEDOUT. -/
theorem c5_retry_amended :
    (∀ k, k < zt_conn_attempts + 1 →
      (connAfterTimeouts k).result = none ∧ (connAfterTimeouts k).sent = k + 1) ∧
    connAfterTimeouts (zt_conn_attempts + 1) =
      { ze_creq_try := 0, sent := zt_conn_attempts + 1,
        result := some NngErr.ETIMEDOUT } := by
  decide

theorem c5_retry_amended_witness :
    (connAfterTimeouts 0).result = none ∧ (connAfterTimeouts 0).sent = 0 + 1 :=
  c5_retry_amended.1 0 (by decide)

/-- C6: the claim states that when the last fragment completes a message
whose length exceeds the pipe's receive-max, the code resets the slot,
SENDS an ERROR(MSGSIZE) frame to the peer, and delivers nothing.  On the
code (last fragment of a 25-fragment, fragment-size-2 message: 50 bytes
against receive-max 49) the slot is indeed reset and nothing is delivered,
but no error frame is transmitted: the `zt_pipe_send_error(p, emsgsize)`
call is commented out in the source (`// XXX:`), which the always-`none`
`txError` component records. -/
theorem c6_msgsize_error_frame_not_sent :
    (zt_pipe_recv_data pipe22 0 frameOver).1.zp_recvq.getD 0 zt_fraglist_empty =
      { fl_time := 0, fl_msgid := 0, fl_ready := false, fl_fragsz := 2, fl_nfrags := 25,
        fl_missing := [0, 0, 0, 0], fl_missingsz := 4, fl_msg := none } ∧
    (zt_pipe_recv_data pipe22 0 frameOver).2 =
      { delivered := [], rxerr := none, txError := none } := by
  decide

/-- C7 counterexample: the claim states zt_pipe_send fails with EMSGSIZE
exactly when `ceil(bytes / fragsz) >= 0xFFFE`.  With `mtu = 40`
(`fragsz = 20`) and `bytes = 1310679 = 0xfffe * 20 - 1`,
`ceil(bytes / fragsz) = 0xfffe`, so the claim requires EMSGSIZE; the code
compares `bytes >= 0xfffe * fragsz`, which is false here, and proceeds
into the fragmentation loop instead (the model reports fuel exhaustion,
not an EMSGSIZE error). -/
theorem c7_counterexample :
    0xfffe ≤ (1310679 + (20 - 1)) / 20 ∧
    zt_pipe_send pipeSnd [{ iov_len := 1310679, iov_buf := [] }] 0 3 =
      SendOutcome.nofuel ∧
    SendOutcome.nofuel ≠ SendOutcome.err NngErr.EMSGSIZE := by
  decide

/-- C7 (amended): on an open pipe, zt_pipe_send fails with EMSGSIZE exactly
when `bytes >= 0xfffe * fragsz`, where `bytes` is the total gather-list
length and `fragsz` is the uint16_t cast of `mtu - 20`; for all smaller
totals no EMSGSIZE error is raised and the call enters the fragmentation
loop. -/
theorem c7_emsgsize_amended (p : zt_pipe) (iovs : List zt_iov) (fragno0 fuel : Nat)
    (hopen : p.zp_closed = false) :
    zt_pipe_send p iovs fragno0 fuel = SendOutcome.err NngErr.EMSGSIZE ↔
      0xfffe * ((p.zp_mtu + (65536 - zt_offset_data_data)) % 65536) ≤
        (iovs.map (fun v => v.iov_len)).sum := by
  unfold zt_pipe_send
  rw [hopen]
  by_cases hg : 0xfffe * ((p.zp_mtu + (65536 - zt_offset_data_data)) % 65536) ≤
      (iovs.map (fun v => v.iov_len)).sum
  · simp [hg]
  · simp only [Bool.false_eq_true, if_false, if_neg hg, iff_false]
    split <;> simp <;> omega

theorem c7_emsgsize_amended_witness :
    zt_pipe_send pipeSnd [{ iov_len := 1310680, iov_buf := [] }] 0 0 =
        SendOutcome.err NngErr.EMSGSIZE ↔
      0xfffe * ((pipeSnd.zp_mtu + (65536 - zt_offset_data_data)) % 65536) ≤
        (([{ iov_len := 1310680, iov_buf := [] }] : List zt_iov).map
          (fun v => v.iov_len)).sum :=
  c7_emsgsize_amended pipeSnd [{ iov_len := 1310680, iov_buf := [] }] 0 0 (by decide)

/-- C8: for a listener and a remote address that already has an established
pipe (raddr present in the node's peer index), every retransmitted valid
CONN_REQ from that raddr produces exactly one more CONN_ACK and leaves the
endpoint state — backlog ring, head, tail, waiters, peer index — entirely
unchanged: N identical CONN_REQ frames yield N CONN_ACKs, no pipe-creation
event and no backlog entry, so at most the one pre-existing pipe exists. -/
theorem c8_conn_req_idempotent (ep : zt_ep) (raddr proto now n : Nat)
    (h : raddr ∈ ep.zn_peers) :
    zt_ep_recv_conn_req_iter raddr proto now n ep =
      (ep, List.replicate n (LEvt.connAck raddr)) :=
  zt_ep_recv_conn_req_iter_peer raddr proto now n ep h

theorem c8_conn_req_idempotent_witness :
    zt_ep_recv_conn_req_iter 42 7 0 3 epPeer42 =
      (epPeer42, List.replicate 3 (LEvt.connAck 42)) :=
  c8_conn_req_idempotent epPeer42 42 7 0 3 (by decide)

/-- C9: (1) in every state reachable from a fresh listening endpoint the
backlog ring holds at most zt_listenq (128) pending connection requests
(`head - tail <= 128`, with `tail <= head`); (2) a valid CONN_REQ arriving
while the backlog is full — from a raddr with no established pipe and no
pending duplicate — is dropped silently (state unchanged, no event
emitted); (3) during the accept drain, a pipe is only ever created for a
backlog entry that has not expired (`now <= cr_expire`); expired entries
are discarded without completing an accept waiter. -/
theorem c9_backlog_invariants :
    (∀ evts : List LInput,
      (zt_ep_run evts).ze_creq_head ≤ (zt_ep_run evts).ze_creq_tail + zt_listenq ∧
      (zt_ep_run evts).ze_creq_tail ≤ (zt_ep_run evts).ze_creq_head) ∧
    (∀ (ep : zt_ep) (raddr proto now : Nat),
      ep.ze_creq_tail + zt_listenq = ep.ze_creq_head →
      raddr ∉ ep.zn_peers →
      zt_creq_pending ep raddr = false →
      zt_ep_recv_conn_req ep raddr proto zt_size_conn_req now = (ep, [])) ∧
    (∀ (ep : zt_ep) (now : Nat) (creq : zt_creq),
      LEvt.pipeCreated creq ∈ (zt_ep_doaccept ep now).2 → now ≤ creq.cr_expire) := by
  refine ⟨fun evts => ?_, zt_ep_recv_conn_req_full_drop, zt_ep_doaccept_not_expired⟩
  have hb := zt_ep_run_bounds evts
  exact ⟨hb.2, hb.1⟩

theorem c9_backlog_invariants_witness :
    ((zt_ep_run [LInput.connReq 3 1 zt_size_conn_req 0]).ze_creq_head ≤
        (zt_ep_run [LInput.connReq 3 1 zt_size_conn_req 0]).ze_creq_tail + zt_listenq ∧
      (zt_ep_run [LInput.connReq 3 1 zt_size_conn_req 0]).ze_creq_tail ≤
        (zt_ep_run [LInput.connReq 3 1 zt_size_conn_req 0]).ze_creq_head) ∧
    zt_ep_recv_conn_req epFull 2 1 zt_size_conn_req 0 = (epFull, []) ∧
    (10 : Nat) ≤ 50 := by
  refine ⟨c9_backlog_invariants.1 _, ?_, ?_⟩
  · exact c9_backlog_invariants.2.1 epFull 2 1 0 (by decide) (by decide) (by decide)
  · exact c9_backlog_invariants.2.2 epBacklog1 10
      { cr_expire := 50, cr_raddr := 9, cr_proto := 1 } (by decide)

theorem zt_state_negative_core (w : ZtStateWorld) (home : String) (objtype : Nat)
    (fname : String) (data : List Nat) (len : Int) (buflen : Nat)
    (hobj : ¬ ZT_STATE_OBJECT_NETWORK_CONFIG < objtype)
    (hf : zt_files.getD objtype none = some fname)
    (hlen : len < 0) :
    zt_state_get (zt_state_put w home objtype data len) home objtype buflen = -1 := by
  have hnot : ¬ (0 ≤ len) := by omega
  unfold zt_state_put zt_state_get
  simp only [if_neg hobj, hf]
  by_cases hh : home.length = 0
  · simp only [if_pos hh, if_neg hnot]
    simp
  · simp only [if_neg hh]
    by_cases hp : NNG_MAXADDRLEN < (home ++ ("/") ++ fname).length
    · simp only [if_pos hp]
    · simp only [if_neg hp, if_pos hlen]
      simp [fsFind_fsErase]

/-- C10: for each persisted object type (1 = identity.public,
2 = identity.secret, 3 = planet), after zt_state_put is invoked with a
negative length, a subsequent zt_state_get for the same type returns -1 in
both modes: with an empty home path the ephemeral slot's data pointer is
set to NULL (so the get returns -1), and with a home directory the file is
unlinked (so fopen fails and the get returns -1). -/
theorem c10_negative_put_then_get (w : ZtStateWorld) (home : String) (objtype : Nat)
    (data : List Nat) (len : Int) (buflen : Nat)
    (hobj : objtype = 1 ∨ objtype = 2 ∨ objtype = 3) (hlen : len < 0) :
    zt_state_get (zt_state_put w home objtype data len) home objtype buflen = -1 := by
  rcases hobj with h | h | h <;> subst h
  · exact zt_state_negative_core w home 1 ("identity.public") data len buflen
      (by decide) rfl hlen
  · exact zt_state_negative_core w home 2 ("identity.secret") data len buflen
      (by decide) rfl hlen
  · exact zt_state_negative_core w home 3 ("planet") data len buflen
      (by decide) rfl hlen

theorem c10_negative_put_then_get_witness :
    zt_state_get (zt_state_put wEmpty ("") 1 [] (-1)) ("") 1 0 = -1 ∧
    zt_state_get (zt_state_put wEmpty ("home") 2 [1, 2] (-5)) ("home") 2 16 = -1 :=
  ⟨c10_negative_put_then_get wEmpty ("") 1 [] (-1) 0 (Or.inl rfl) (by decide),
   c10_negative_put_then_get wEmpty ("home") 2 [1, 2] (-5) 16 (Or.inr (Or.inl rfl)) (by decide)⟩
